import Mathlib

/-!
Shallow embedding of the train-trip-visualization program (src/main.py).

Modelling conventions:
- Coordinates (latitude, longitude) are opaque numeric values that the
  program only copies around and never computes with; they are modelled
  as integers.
- A datetime object is modelled by its calendar fields; strftime with the
  fixed pattern hour:minute day.month.year is modelled by a zero-padding
  formatter.
- A journey duration (a timedelta that is only ever interpolated into a
  string) is modelled as a string.
- Reading an integer from the user with int(input(...)) either yields an
  integer or raises ValueError; it is modelled as an Option Int argument,
  none standing for the ValueError case.
- print plus sys.exit(1) failure paths are modelled as dedicated result
  constructors carrying the printed message.
-/

structure Station where
  id : String
  name : String
  latitude : Int
  longitude : Int
deriving Repr, DecidableEq

structure Datetime where
  hour : Nat
  minute : Nat
  day : Nat
  month : Nat
  year : Nat
deriving Repr, DecidableEq

structure Stopover where
  stop : Station
  arrival : Option Datetime
  departure : Option Datetime
deriving Repr, DecidableEq

structure Leg where
  origin : Station
  destination : Station
  departure : Datetime
  arrival : Datetime
  stopovers : List Stopover
deriving Repr, DecidableEq

structure Journey where
  legs : List Leg
  duration : String
deriving Repr, DecidableEq

/-- Zero-pad a number to two digits, as strftime does for hour, minute,
day and month fields. -/
def pad2 (n : Nat) : String :=
  if n < 10 then ("0") ++ toString n else toString n

/-- Zero-pad a number to four digits, as strftime does for the year field. -/
def pad4 (n : Nat) : String :=
  if n < 10 then ("000") ++ toString n
  else if n < 100 then ("00") ++ toString n
  else if n < 1000 then ("0") ++ toString n
  else toString n

/-- strftime with the fixed pattern used everywhere in main.py:
hour:minute day.month.year on a 24-hour clock. -/
def strftimeHMdmY (t : Datetime) : String :=
  pad2 t.hour ++ (":") ++ pad2 t.minute ++ (" ") ++ pad2 t.day
    ++ (".") ++ pad2 t.month ++ (".") ++ pad4 t.year

/-- Python list indexing semantics: a nonnegative index reads from the
front, a negative index i reads element length + i, and anything out of
that range raises IndexError (modelled as none). -/
def pyGet {α : Type} (xs : List α) (i : Int) : Option α :=
  if 0 ≤ i then xs.get? i.toNat
  else if 0 ≤ i + xs.length then xs.get? (i + xs.length).toNat
  else none

/-- Result of convert_station_str_to_station: either a station, or one of
the three print-and-exit failure paths of the function. -/
inductive ConvertResult where
  | station (s : Station)
  | exitNotFound (msg : String)
  | exitInvalidInput (msg : String)
  | exitInvalidIndex (msg : String)
deriving Repr, DecidableEq

/-- Embedding of convert_station_str_to_station from src/main.py.
The external HAFAS lookup result is passed in as the locations list, and
the interactive read is passed in as userInput (none models a ValueError
from int(input(...))). The selected index is computed as userInput - 1 and
looked up with Python indexing semantics, so IndexError arises only when
the shifted index is out of the negative-indexing range. -/
def convert_station_str_to_station (stationStr : String) (locations : List Station)
    (userInput : Option Int) : ConvertResult :=
  match locations with
  | [] => ConvertResult.exitNotFound (("Could not find any stations with the name ") ++ stationStr)
  | [s] => ConvertResult.station s
  | _ :: _ :: _ =>
    match userInput with
    | none => ConvertResult.exitInvalidInput ("Invalid input")
    | some n =>
      match pyGet locations (n - 1) with
      | some s => ConvertResult.station s
      | none => ConvertResult.exitInvalidIndex ("Invalid index")

/-- The numbered candidate lines printed in the ambiguous branch of
convert_station_str_to_station: enumerate(locations[:5]) printed as
index + 1 and name. Nothing is printed in the other branches. -/
def disambiguation_menu (locations : List Station) : List (Nat × String) :=
  match locations with
  | [] => []
  | [_] => []
  | _ :: _ :: _ => (locations.take 5).enum.map (fun p => (p.1 + 1, p.2.name))

/-- Result of the route-selection step at the bottom of main.py: the
selected index, the handled invalid-selection exit (print "Invalid
selection" then sys.exit(1)), or an uncaught ValueError from
int(input(...)) which aborts the process with a traceback. -/
inductive RouteSelResult where
  | selected (idx : Nat)
  | exitInvalidSelection
  | uncaughtValueError
deriving Repr, DecidableEq

/-- Embedding of the itinerary-selection step of the main block:
route_selection = int(input(...)) with no surrounding try, followed by
the range check that prints "Invalid selection" and exits. -/
def routeSelection (input : Option Int) (numJourneys : Nat) : RouteSelResult :=
  match input with
  | none => RouteSelResult.uncaughtValueError
  | some r =>
    if r < 0 ∨ (numJourneys : Int) ≤ r then RouteSelResult.exitInvalidSelection
    else RouteSelResult.selected r.toNat

/-- A folium.Circle call: fixed radius, a coordinate, a popup string, a
color and a fill flag. -/
structure CircleMarker where
  radius : Nat
  location : Int × Int
  popup : String
  color : String
  fill : Bool
deriving Repr, DecidableEq

/-- A folium.PolyLine call: an ordered coordinate list and a color. -/
structure Polyline where
  points : List (Int × Int)
  color : String
deriving Repr, DecidableEq

/-- The folium.Map built by draw: center and zoom from the constructor,
the two attached controls, and the markers and polylines added to it, in
order of addition. -/
structure RenderedMap where
  center : Int × Int
  zoomStart : Nat
  locateControl : Bool
  measureControl : Bool
  markers : List CircleMarker
  polylines : List Polyline
deriving Repr, DecidableEq

/-- The fixed color list indexed in draw:
["Red","Blue","Green","Black","White"][transfer_count % 5]. -/
def palette : List String :=
  [("Red"), ("Blue"), ("Green"), ("Black"), ("White")]

/-- The color of the polyline for the leg with leg-index i, as computed
by the indexing expression in draw. -/
def colorFor (i : Nat) : String :=
  palette[i % 5]!

/-- The popup text of a stopover circle in detailed mode: stop name, a
dash, then the departure time if present, else the arrival time if
present, else the literal text unknown. -/
def stopoverPopup (st : Stopover) : String :=
  st.stop.name ++ (" - ") ++
    (match st.departure with
     | some d => strftimeHMdmY d
     | none =>
       match st.arrival with
       | some a => strftimeHMdmY a
       | none => ("unknown"))

/-- The circle marker added for one stopover in detailed mode. -/
def stopoverMarker (st : Stopover) : CircleMarker :=
  { radius := 1000
    location := (st.stop.latitude, st.stop.longitude)
    popup := stopoverPopup st
    color := ("crimson")
    fill := true }

/-- The route_line_points list built for one leg: in detailed mode the
coordinates of all stopovers in order, in transfer-only mode exactly the
origin and destination coordinates of the leg. -/
def legRoutePoints (onlyTransferStations : Bool) (leg : Leg) : List (Int × Int) :=
  if onlyTransferStations = false then
    leg.stopovers.map (fun st => (st.stop.latitude, st.stop.longitude))
  else
    [(leg.origin.latitude, leg.origin.longitude),
     (leg.destination.latitude, leg.destination.longitude)]

/-- The circle markers added while processing one leg, in order of
addition: one per stopover in detailed mode; the origin marker followed
by the destination marker in transfer-only mode. -/
def legMarkers (onlyTransferStations : Bool) (leg : Leg) : List CircleMarker :=
  if onlyTransferStations = false then
    leg.stopovers.map stopoverMarker
  else
    [ { radius := 1000
        location := (leg.origin.latitude, leg.origin.longitude)
        popup := leg.origin.name ++ (" - ") ++ strftimeHMdmY leg.departure
        color := ("crimson")
        fill := true },
      { radius := 1000
        location := (leg.destination.latitude, leg.destination.longitude)
        popup := leg.destination.name ++ (" - ") ++ strftimeHMdmY leg.arrival
        color := ("crimson")
        fill := true } ]

/-- One iteration of the leg loop in draw: append the circle markers of
the leg and then the single polyline through its route line points, in
the color selected by the current transfer_count. -/
def addLeg (onlyTransferStations : Bool) (m : RenderedMap) (i : Nat) (leg : Leg) :
    RenderedMap :=
  { m with
    markers := m.markers ++ legMarkers onlyTransferStations leg
    polylines := m.polylines ++
      [{ points := legRoutePoints onlyTransferStations leg, color := colorFor i }] }

/-- Embedding of draw from src/main.py in state-passing style: the
journey argument is threaded through every step, since Python passes the
journey object by reference and the body may in principle mutate it; the
body only reads it, so each step returns it as received. Accessing
journey.legs[0] on an empty legs list raises IndexError, modelled as a
none map. The result pairs the journey as it is after the call with the
map built by the call. -/
def drawMut (journey : Journey) (onlyTransferStations : Bool) :
    Journey × Option RenderedMap :=
  match journey.legs with
  | [] => (journey, none)
  | l0 :: _ =>
    let m0 : RenderedMap :=
      { center := (l0.origin.latitude, l0.origin.longitude)
        zoomStart := 8
        locateControl := true
        measureControl := true
        markers := []
        polylines := [] }
    let final := journey.legs.foldl
      (fun (acc : Journey × RenderedMap × Nat) leg =>
        (acc.1, addLeg onlyTransferStations acc.2.1 acc.2.2 leg, acc.2.2 + 1))
      (journey, m0, 0)
    (final.1, some final.2.1)

/-- The map returned by draw (none models the IndexError crash on a
journey with no legs, a precondition violation). -/
def draw (journey : Journey) (onlyTransferStations : Bool) : Option RenderedMap :=
  (drawMut journey onlyTransferStations).2

/-- The polylines produced for a list of legs starting at leg-index i,
in order: one polyline per leg. -/
def legPolylines (onlyTransferStations : Bool) (i : Nat) : List Leg → List Polyline
  | [] => []
  | leg :: rest =>
    { points := legRoutePoints onlyTransferStations leg, color := colorFor i }
      :: legPolylines onlyTransferStations (i + 1) rest

/-- Embedding of the per-itinerary summary line printed by the main
block for the journey at 0-based index i. The two print statements of
the source share their leading text verbatim; the branch on
len(journey.legs) == 1 decides the tail: the literal no-changes text, or
the change count len(legs) - 1 followed by the comma-joined destination
names of journey.legs[:-1], which is legs.dropLast here. legs[0] and
legs[-1] on an empty legs list raise IndexError, modelled as none. -/
def describeJourney (i : Nat) (j : Journey) : Option String :=
  match j.legs with
  | [] => none
  | l0 :: rest =>
    some (("- ") ++ toString i ++ (": Journey starts at ")
      ++ strftimeHMdmY l0.departure ++ (" and ends at ")
      ++ strftimeHMdmY ((l0 :: rest).getLast (List.cons_ne_nil l0 rest)).arrival
      ++ (". The complete journey takes ") ++ j.duration ++ (" and has ")
      ++ (if (l0 :: rest).length = 1 then ("no changes")
          else toString ((l0 :: rest).length - 1) ++ (" changes (at ")
            ++ String.intercalate (", ")
                ((l0 :: rest).dropLast.map (fun leg => leg.destination.name))
            ++ (")")))

/-- The summary line as the specification words it, for comparison with
describeJourney: with legs L0..Ln the transfer count is n; when n is
positive the line lists the destination names of L0..L(n-1), that is of
the first n legs; when n is zero it states no changes. -/
def specSummary (i : Nat) (j : Journey) : Option String :=
  match j.legs with
  | [] => none
  | l0 :: rest =>
    let n : Nat := (l0 :: rest).length - 1
    some (("- ") ++ toString i ++ (": Journey starts at ")
      ++ strftimeHMdmY l0.departure ++ (" and ends at ")
      ++ strftimeHMdmY ((l0 :: rest).getLast (List.cons_ne_nil l0 rest)).arrival
      ++ (". The complete journey takes ") ++ j.duration ++ (" and has ")
      ++ (if n = 0 then ("no changes")
          else toString n ++ (" changes (at ")
            ++ String.intercalate (", ")
                (((l0 :: rest).take n).map (fun leg => leg.destination.name))
            ++ (")")))

/-- Concrete fixtures used by witness and counterexample theorems. -/
def stationA : Station :=
  { id := ("A1"), name := ("Alpha"), latitude := 52, longitude := 13 }

def stationB : Station :=
  { id := ("B1"), name := ("Beta"), latitude := 48, longitude := 11 }

def t0900 : Datetime :=
  { hour := 9, minute := 0, day := 1, month := 2, year := 2023 }

def t0945 : Datetime :=
  { hour := 9, minute := 45, day := 1, month := 2, year := 2023 }

def legAB : Leg :=
  { origin := stationA, destination := stationB, departure := t0900,
    arrival := t0945, stopovers := [] }

def journeyAB : Journey :=
  { legs := [legAB], duration := ("0:45:00") }

def stopArrOnly : Stopover :=
  { stop := stationB, arrival := some t0945, departure := none }

def stopNoTimes : Stopover :=
  { stop := stationB, arrival := none, departure := none }

def emptyMap : RenderedMap :=
  { center := (0, 0), zoomStart := 0, locateControl := false,
    measureControl := false, markers := [], polylines := [] }

/-- The concrete map drawn for journeyAB in transfer-only mode. -/
def mapW : RenderedMap :=
  (draw journeyAB true).getD emptyMap

/-- The first circle marker of mapW. -/
def mkW : CircleMarker :=
  mapW.markers.headD
    { radius := 0, location := (0, 0), popup := (""), color := (""), fill := false }

/-! Helper lemmas about the renderer. -/

theorem drawFoldAux (only : Bool) (L : List Leg) (jv : Journey) (m : RenderedMap) (i : Nat) :
    L.foldl
      (fun (acc : Journey × RenderedMap × Nat) leg =>
        (acc.1, addLeg only acc.2.1 acc.2.2 leg, acc.2.2 + 1))
      (jv, m, i)
    = (jv,
       { m with
         markers := m.markers ++ (L.map (legMarkers only)).flatten
         polylines := m.polylines ++ legPolylines only i L },
       i + L.length) := by
  induction L generalizing m i with
  | nil => simp [legPolylines]
  | cons a t ih =>
    rw [List.foldl_cons, ih]
    simp only [addLeg, legPolylines, List.map_cons, List.flatten_cons, List.length_cons,
      List.append_assoc, List.cons_append, List.singleton_append, Prod.mk.injEq]
    exact ⟨trivial, rfl, by omega⟩

theorem draw_legs_cons (only : Bool) (l0 : Leg) (rest : List Leg) (dur : String) :
    draw { legs := l0 :: rest, duration := dur } only
      = some { center := (l0.origin.latitude, l0.origin.longitude)
               zoomStart := 8
               locateControl := true
               measureControl := true
               markers := ((l0 :: rest).map (legMarkers only)).flatten
               polylines := legPolylines only 0 (l0 :: rest) } := by
  simp only [draw, drawMut, drawFoldAux, List.nil_append]

theorem drawMut_fst (j : Journey) (only : Bool) : (drawMut j only).1 = j := by
  obtain ⟨legs, dur⟩ := j
  cases legs with
  | nil => rfl
  | cons l0 rest => simp only [drawMut, drawFoldAux]

theorem draw_legs_nil (only : Bool) (j : Journey) (h : j.legs = []) :
    draw j only = none := by
  obtain ⟨legs, dur⟩ := j
  cases h
  rfl

theorem legPolylines_length (only : Bool) (i : Nat) (L : List Leg) :
    (legPolylines only i L).length = L.length := by
  induction L generalizing i with
  | nil => rfl
  | cons a t ih => simp [legPolylines, ih]

theorem legPolylines_map_color (only : Bool) (i : Nat) (L : List Leg) :
    (legPolylines only i L).map Polyline.color
      = (List.range L.length).map (fun k => colorFor (i + k)) := by
  induction L generalizing i with
  | nil => rfl
  | cons a t ih =>
    simp only [legPolylines, List.map_cons, List.length_cons, List.range_succ_eq_map, ih,
      List.map_map]
    refine List.cons_eq_cons.mpr ⟨by rw [Nat.add_zero], ?_⟩
    exact List.map_congr_left (fun a _ => congrArg colorFor (by omega))

theorem legMarkers_fixed (only : Bool) (leg : Leg) :
    ∀ mk ∈ legMarkers only leg,
      mk.radius = 1000 ∧ mk.color = ("crimson") ∧ mk.fill = true := by
  intro mk hmk
  cases only with
  | false =>
    simp [legMarkers] at hmk
    obtain ⟨st, _, rfl⟩ := hmk
    exact ⟨rfl, rfl, rfl⟩
  | true =>
    simp [legMarkers] at hmk
    rcases hmk with rfl | rfl <;> exact ⟨rfl, rfl, rfl⟩

theorem legMarkers_detailed_popups (leg : Leg) :
    (legMarkers false leg).map CircleMarker.popup = leg.stopovers.map stopoverPopup := by
  rw [show legMarkers false leg = leg.stopovers.map stopoverMarker from if_pos rfl,
    List.map_map]
  exact List.map_congr_left (fun a _ => rfl)

/-! Claim theorems. -/

/-- Claim C1, evaluation at the failing input: with two lookup candidates,
a user selection of 0 does not fail; the index expression 0 - 1 = -1 hits
the Python negative-indexing range and silently returns the last
candidate. The claim (and the intent visible in the IndexError handler)
says a selection of 0 must fail as an invalid selection. -/
theorem c1_selection_zero_returns_last_candidate :
    convert_station_str_to_station ("Berlin") [stationA, stationB] (some 0)
      = ConvertResult.station stationB := by
  rfl

/-- Claim C2 counterexample: a malformed (non-integer) selection at the
itinerary-selection step is not routed to the handled invalid-selection
exit with its descriptive message; int(input(...)) is outside any try
block there, so the run aborts with an uncaught ValueError. -/
theorem c2_malformed_selection_not_handled :
    routeSelection none 3 = RouteSelResult.uncaughtValueError
    ∧ routeSelection none 3 ≠ RouteSelResult.exitInvalidSelection :=
  ⟨rfl, by decide⟩

/-- Claim C2 as amended: an integer selection outside [0, number of
itineraries) fails with the handled InvalidSelectionError exit (the
descriptive message and non-zero exit); a malformed selection terminates
the run with non-zero exit via an uncaught ValueError instead of the
handled path; an in-range selection is returned. -/
theorem c2_route_selection_amended :
    ∀ (input : Option Int) (n : Nat),
      (input = none → routeSelection input n = RouteSelResult.uncaughtValueError)
      ∧ (∀ r, input = some r → (r < 0 ∨ (n : Int) ≤ r) →
          routeSelection input n = RouteSelResult.exitInvalidSelection)
      ∧ (∀ r, input = some r → 0 ≤ r → r < (n : Int) →
          routeSelection input n = RouteSelResult.selected r.toNat) := by
  intro input n
  refine ⟨?_, ?_, ?_⟩
  · rintro rfl
    rfl
  · rintro r rfl h
    simp only [routeSelection, if_pos h]
  · rintro r rfl h0 hn
    have hcond : ¬(r < 0 ∨ (n : Int) ≤ r) := by omega
    simp only [routeSelection, if_neg hcond]

/-- Witness for the amended claim C2, at concrete inputs: selection 5 of
3 itineraries exits as invalid, selection 1 is returned, and a malformed
read aborts with the uncaught ValueError. -/
theorem c2_route_selection_amended_witness :
    routeSelection (some 5) 3 = RouteSelResult.exitInvalidSelection
    ∧ routeSelection (some 1) 3 = RouteSelResult.selected 1
    ∧ routeSelection none 3 = RouteSelResult.uncaughtValueError :=
  ⟨(c2_route_selection_amended (some 5) 3).2.1 5 rfl (by decide),
   (c2_route_selection_amended (some 1) 3).2.2 1 rfl (by decide) (by decide),
   (c2_route_selection_amended none 3).1 rfl⟩

/-- Claim C7: for every station name whose lookup returns no candidate,
the resolver takes the not-found exit reporting the name, prints no
disambiguation menu, and never returns a station. -/
theorem c7_empty_lookup_fails_not_found :
    ∀ (stationStr : String) (userInput : Option Int),
      convert_station_str_to_station stationStr [] userInput
        = ConvertResult.exitNotFound
            (("Could not find any stations with the name ") ++ stationStr)
      ∧ disambiguation_menu [] = [] :=
  fun _ _ => ⟨rfl, rfl⟩

/-- Claim C8: the summary line printed for the itinerary at 0-based index
i equals, for every itinerary, the line described by the specification:
it carries the index, the departure time of the first leg, the arrival
time of the last leg and the total duration, and ends with the no-changes
text when there is a single leg, else with the transfer count n and the
destination names of the first n legs, in order. -/
theorem c8_summary_line_matches_spec :
    ∀ (i : Nat) (j : Journey), describeJourney i j = specSummary i j := by
  intro i j
  obtain ⟨legs, dur⟩ := j
  cases legs with
  | nil => rfl
  | cons l0 rest =>
    cases rest with
    | nil => rfl
    | cons r rs =>
      simp only [describeJourney, specSummary, List.length_cons, List.dropLast_eq_take]
      have h1 : ¬(rs.length + 1 + 1 = 1) := by omega
      have h2 : ¬(rs.length + 1 + 1 - 1 = 0) := by omega
      rw [if_neg h1, if_neg h2]

/-- Claim C3: in detailed mode the popups of the drawn circle markers are
exactly the stopover popups, in order, and the popup timestamp policy is:
the departure time when present, else the arrival time when present, else
the literal unknown text. -/
theorem c3_popup_timestamp_policy :
    ∀ (j : Journey) (st : Stopover),
      ((draw j false).map (fun rm => rm.markers.map CircleMarker.popup)
        = (draw j false).map (fun _ =>
            ((j.legs.map Leg.stopovers).flatten).map stopoverPopup))
      ∧ (∀ d, st.departure = some d →
          stopoverPopup st = st.stop.name ++ (" - ") ++ strftimeHMdmY d)
      ∧ (st.departure = none → ∀ a, st.arrival = some a →
          stopoverPopup st = st.stop.name ++ (" - ") ++ strftimeHMdmY a)
      ∧ (st.departure = none → st.arrival = none →
          stopoverPopup st = st.stop.name ++ (" - ") ++ ("unknown")) := by
  intro j st
  refine ⟨?_, ?_, ?_, ?_⟩
  · obtain ⟨legs, dur⟩ := j
    cases legs with
    | nil => rfl
    | cons l0 rest =>
      rw [draw_legs_cons]
      simp only [Option.map_some']
      congr 1
      rw [List.map_flatten, List.map_flatten, List.map_map, List.map_map]
      congr 1
      exact List.map_congr_left (fun leg _ => legMarkers_detailed_popups leg)
  · intro d hd
    simp [stopoverPopup, hd]
  · intro hd a ha
    simp [stopoverPopup, hd, ha]
  · intro hd ha
    simp [stopoverPopup, hd, ha]

/-- Witness for claim C3 at concrete stopovers: one with only an arrival
time, whose popup uses that arrival time, and one with no times at all,
whose popup carries the literal unknown text. -/
theorem c3_popup_timestamp_policy_witness :
    stopoverPopup stopArrOnly = stationB.name ++ (" - ") ++ strftimeHMdmY t0945
    ∧ stopoverPopup stopNoTimes = stationB.name ++ (" - ") ++ ("unknown") :=
  ⟨(c3_popup_timestamp_policy journeyAB stopArrOnly).2.2.1 rfl t0945 rfl,
   (c3_popup_timestamp_policy journeyAB stopNoTimes).2.2.2 rfl rfl⟩

/-- Claim C4: in both modes, the polyline colors of a drawn journey are,
leg by leg, the palette entry at the leg index modulo 5; the assignment
is cyclic with period 5, and for seven legs it yields the first five
palette colors followed by the first two again. -/
theorem c4_polyline_colors_cycle :
    ∀ (j : Journey) (only : Bool),
      ((draw j only).map (fun rm => rm.polylines.map Polyline.color)
        = (draw j only).map (fun _ => (List.range j.legs.length).map colorFor))
      ∧ (∀ i, colorFor (i + 5) = colorFor i)
      ∧ (List.range 7).map colorFor
          = [("Red"), ("Blue"), ("Green"), ("Black"), ("White"), ("Red"), ("Blue")] := by
  intro j only
  refine ⟨?_, ?_, by rfl⟩
  · obtain ⟨legs, dur⟩ := j
    cases legs with
    | nil => rfl
    | cons l0 rest =>
      rw [draw_legs_cons]
      simp only [Option.map_some']
      congr 1
      rw [legPolylines_map_color]
      exact List.map_congr_left (fun k _ => congrArg colorFor (Nat.zero_add k))
  · intro i
    unfold colorFor
    rw [Nat.add_mod_right]

/-- Claim C5: a single-leg itinerary drawn in detailed mode yields one
polyline whose point count is the stopover count and one circle marker
per stopover; drawn in transfer-only mode it yields one polyline through
exactly the origin and destination coordinates of the leg and exactly two
circle markers, whatever the stopover count. -/
theorem c5_single_leg_counts :
    ∀ (leg : Leg) (dur : String),
      ((draw { legs := [leg], duration := dur } false).map
          (fun rm => (rm.polylines.map (fun p => p.points.length), rm.markers.length))
        = some ([leg.stopovers.length], leg.stopovers.length))
      ∧ ((draw { legs := [leg], duration := dur } true).map
          (fun rm => (rm.polylines.map Polyline.points, rm.markers.length))
        = some ([[(leg.origin.latitude, leg.origin.longitude),
                  (leg.destination.latitude, leg.destination.longitude)]], 2)) := by
  intro leg dur
  constructor
  · rw [draw_legs_cons]
    simp [legPolylines, legRoutePoints, legMarkers]
  · rw [draw_legs_cons]
    simp [legPolylines, legRoutePoints, legMarkers]

/-- Claim C6: in both modes exactly one polyline is drawn per leg, so the
polyline count equals the leg count; the draw succeeds exactly when the
itinerary has at least one leg; and a leg with no stopovers still gets
its (empty, degenerate) polyline in detailed mode rather than an error
or a skip. -/
theorem c6_one_polyline_per_leg :
    (∀ (j : Journey) (only : Bool),
      ((draw j only).map (fun rm => rm.polylines.length)
        = (draw j only).map (fun _ => j.legs.length))
      ∧ ((draw j only).isSome = !j.legs.isEmpty))
    ∧ (∀ (o d : Station) (td ta : Datetime) (dur : String),
        (draw { legs := [{ origin := o, destination := d, departure := td,
                           arrival := ta, stopovers := [] }],
                duration := dur } false).map
            (fun rm => rm.polylines.map (fun p => p.points.length))
          = some [0]) := by
  constructor
  · intro j only
    obtain ⟨legs, dur⟩ := j
    cases legs with
    | nil => exact ⟨rfl, rfl⟩
    | cons l0 rest =>
      rw [draw_legs_cons]
      exact ⟨by simp [legPolylines_length], rfl⟩
  · intro o d td ta dur
    rw [draw_legs_cons]
    simp [legPolylines, legRoutePoints]

/-- Claim C9: every circle marker drawn in either mode has the fixed
appearance radius 1000, color crimson and fill enabled, independent of
the leg index; the cyclic palette drives polylines only. -/
theorem c9_markers_fixed_appearance :
    ∀ (j : Journey) (only : Bool) (rm : RenderedMap),
      draw j only = some rm →
      ∀ mk ∈ rm.markers,
        mk.radius = 1000 ∧ mk.color = ("crimson") ∧ mk.fill = true := by
  intro j only rm hrm mk hmk
  obtain ⟨legs, dur⟩ := j
  cases legs with
  | nil => exact absurd hrm (by simp [draw, drawMut])
  | cons l0 rest =>
    rw [draw_legs_cons] at hrm
    injection hrm with hrm
    subst hrm
    simp only [List.mem_flatten, List.mem_map] at hmk
    obtain ⟨l, ⟨leg, _, rfl⟩, hml⟩ := hmk
    exact legMarkers_fixed only leg mk hml

/-- Witness for claim C9: the first marker of the concrete map drawn for
journeyAB in transfer-only mode has the fixed appearance. -/
theorem c9_markers_fixed_appearance_witness :
    mkW.radius = 1000 ∧ mkW.color = ("crimson") ∧ mkW.fill = true :=
  c9_markers_fixed_appearance journeyAB true mapW (by rfl) mkW (by decide)

/-- Claim C10: draw only reads the itinerary: threading the journey
through every step of the embedding in state-passing style returns it
unchanged, in both modes. -/
theorem c10_draw_leaves_journey_unchanged :
    ∀ (j : Journey) (only : Bool), (drawMut j only).1 = j :=
  drawMut_fst
